import Mathlib

/-!
Verification of the winrunner process supervisor.

Shallow embedding of `src/process_manager.py` and `src/config_manager.py`.
The operating system (path existence, child-process polling, psutil
cross-checks, spawning, terminate/kill behaviour, the bounded-time probe
of `subprocess.run`) is modelled as an explicit oracle `OSEnv`; the
Python dict `ProcessManager.processes` is modelled as an association
list with Python-dict semantics (replace in place on existing key,
append on new key).
-/

set_option autoImplicit false

/-- Embeds the `ProgramConfig` dataclass of `config_manager.py`. -/
structure ProgramConfig where
  name : String
  working_directory : String
  executable : String
  arguments : List String
deriving DecidableEq

/-- Embeds the `AppSettings` dataclass of `config_manager.py`. -/
structure AppSettings where
  monitor_interval_seconds : Nat
  log_directory : String
deriving DecidableEq

/-- Embeds the `ProcessInfo` dataclass of `process_manager.py`.
A `subprocess.Popen` handle is modelled as an opaque numeric identifier.
The dataclass defaults (`process=None`, `pid=None`, `is_running=False`,
`start_time=None`) are the `freshInfo` builder below. -/
structure ProcessInfo where
  name : String
  process : Option Nat
  pid : Option Nat
  is_running : Bool
  start_time : Option Nat
deriving DecidableEq

/-- `ProcessInfo(name=n)` with the dataclass defaults. -/
def freshInfo (n : String) : ProcessInfo :=
  { name := n, process := none, pid := none, is_running := false, start_time := none }

/-- The dict `ProcessManager.processes`, as an association list. -/
abbrev ProcMap := List (String × ProcessInfo)

/-- Dict lookup: `self.processes[name]` / `name in self.processes`. -/
def lookupMap : ProcMap → String → Option ProcessInfo
  | [], _ => none
  | (k, v) :: rest, n => if k = n then some v else lookupMap rest n

/-- Replace the value at an existing key, keeping its position; a map
without the key is returned unchanged (mutation of a fetched entry). -/
def updateMap : ProcMap → String → ProcessInfo → ProcMap
  | [], _, _ => []
  | (k, w) :: rest, n, v =>
      if k = n then (k, v) :: rest else (k, w) :: updateMap rest n v

/-- Python dict assignment `self.processes[n] = v`: replace in place if
the key exists, append otherwise. -/
def setMap (m : ProcMap) (n : String) (v : ProcessInfo) : ProcMap :=
  match lookupMap m n with
  | some _ => updateMap m n v
  | none => m ++ [(n, v)]

/-- Outcome of `process.poll()` (plus the possibility that the OS call
raises an unexpected error, which Python would surface as an exception). -/
inductive PollOutcome where
  | exited (code : Int)
  | alive
  | raises
deriving DecidableEq

/-- Outcome of the `psutil.Process(pid)` cross-check on Windows:
the process is running, exists but is not running, does not exist
(`psutil.NoSuchProcess`), or the call raises an unexpected error. -/
inductive PsutilOutcome where
  | alive
  | notRunning
  | noSuch
  | raises
deriving DecidableEq

/-- Outcome of `subprocess.Popen(...)` in `start_program`: a spawned
child with a handle and a pid, or an exception. -/
inductive SpawnOutcome where
  | ok (handle pid : Nat)
  | fails
deriving DecidableEq

/-- Outcome of the `terminate(); wait(timeout=3)` sequence in
`stop_program`: the child exits within the grace period (`graceful`),
the wait times out and the child is force-killed (`forced`), or an
unexpected OS error is raised. -/
inductive StopOutcome where
  | graceful
  | forced
  | raises
deriving DecidableEq

/-- Outcome of `subprocess.run([exe, "--version"], capture_output=True,
timeout=1)`: the invocation completes with some exit code, raises
`subprocess.TimeoutExpired`, or raises `FileNotFoundError`
(`subprocess.CalledProcessError` is in the handler but `subprocess.run`
without `check=True` never raises it). -/
inductive RunOutcome where
  | completed (code : Int)
  | timedOut
  | notFound
deriving DecidableEq

/-- The operating-system oracle: every OS interaction the manager makes,
keyed by path, handle or pid where the call takes one. -/
structure OSEnv where
  pathExists : String → Bool
  poll : Nat → PollOutcome
  isNt : Bool
  psutil : Nat → PsutilOutcome
  spawn : SpawnOutcome
  stopBehavior : Nat → StopOutcome
  runProbe : String → RunOutcome
  now : Nat

/-- Python truthiness of `process_info.pid` (falsy when `None` or `0`). -/
def pidTruthy : Option Nat → Bool
  | none => false
  | some p => decide (p ≠ 0)

/-- `os.path.join(wd, exe)`. -/
def joinPath (a b : String) : String := a ++ "/" ++ b

/-- Embeds `ProcessManager._is_executable_in_path`: run the executable
with `--version` under a 1-second timeout; the caught exceptions
(timeout, command not found) yield `False`, completion yields `True`. -/
def is_executable_in_path (env : OSEnv) (exe : String) : Bool :=
  match env.runProbe exe with
  | RunOutcome.completed _ => true
  | RunOutcome.timedOut => false
  | RunOutcome.notFound => false

/-- Embeds `ProcessManager.add_program`: assign a fresh default
`ProcessInfo` to the dict under the config's name. -/
def add_program (procs : ProcMap) (cfg : ProgramConfig) : ProcMap :=
  setMap procs cfg.name (freshInfo cfg.name)

/-- Embeds `ProcessManager.is_running`. Returns the boolean result and
the updated map (the check mutates the entry when it observes an exit). -/
def is_running (env : OSEnv) (procs : ProcMap) (n : String) :
    Bool × ProcMap :=
  match lookupMap procs n with
  | none => (false, procs)
  | some info =>
    match info.process with
    | none => (false, procs)
    | some h =>
      match env.poll h with
      | PollOutcome.raises => (false, procs)
      | PollOutcome.exited _ =>
          (false, updateMap procs n
            { info with is_running := false, process := none, pid := none })
      | PollOutcome.alive =>
          if env.isNt && pidTruthy info.pid then
            match info.pid with
            | none => (true, procs)
            | some p =>
              match env.psutil p with
              | PsutilOutcome.alive => (true, procs)
              | PsutilOutcome.notRunning =>
                  (false, updateMap procs n
                    { info with is_running := false, process := none, pid := none })
              | PsutilOutcome.noSuch =>
                  (false, updateMap procs n
                    { info with is_running := false, process := none, pid := none })
              | PsutilOutcome.raises => (false, procs)
          else (true, procs)

/-- Embeds `ProcessManager.start_program`. Returns the boolean result,
the updated map and the list of handles spawned during the call. -/
def start_program (env : OSEnv) (procs : ProcMap) (cfg : ProgramConfig) :
    Bool × ProcMap × List Nat :=
  let check := is_running env procs cfg.name
  let procs1 := check.2
  if check.1 then (true, procs1, [])
  else if !env.pathExists cfg.working_directory then (false, procs1, [])
  else if !env.pathExists (joinPath cfg.working_directory cfg.executable)
          && !is_executable_in_path env cfg.executable then (false, procs1, [])
  else
    match env.spawn with
    | SpawnOutcome.fails => (false, procs1, [])
    | SpawnOutcome.ok h p =>
      match lookupMap procs1 cfg.name with
      | none => (false, procs1, [h])
      | some info =>
        (true,
         updateMap procs1 cfg.name
           { info with
               process := some h, pid := some p,
               is_running := true, start_time := some env.now },
         [h])

/-- Embeds `ProcessManager.stop_program`. Returns the boolean result and
the updated map. -/
def stop_program (env : OSEnv) (procs : ProcMap) (n : String) :
    Bool × ProcMap :=
  match lookupMap procs n with
  | none => (false, procs)
  | some info =>
    match info.process, info.is_running with
    | some h, true =>
        match env.stopBehavior h with
        | StopOutcome.raises => (false, procs)
        | StopOutcome.graceful =>
            (true, updateMap procs n
              { info with
                  process := none, pid := none,
                  is_running := false, start_time := none })
        | StopOutcome.forced =>
            (true, updateMap procs n
              { info with
                  process := none, pid := none,
                  is_running := false, start_time := none })
    | _, _ => (true, procs)

/-- Parsed JSON `settings` section (`.get` defaults applied later). -/
structure SettingsData where
  monitor_interval_seconds : Option Nat
  log_directory : Option String
deriving DecidableEq

/-- Parsed JSON program entry (`.get` defaults applied later). -/
structure ProgramData where
  name : Option String
  working_directory : Option String
  executable : Option String
  arguments : Option (List String)
deriving DecidableEq

/-- A parsed JSON configuration document. -/
structure ConfigData where
  settings : Option SettingsData
  programs : Option (List ProgramData)
deriving DecidableEq

/-- What reading `config_path` can produce: the file does not exist, it
exists but parsing raises (`json.JSONDecodeError` / `KeyError` /
`TypeError`), or it parses to a document. -/
inductive ReadOutcome where
  | absent
  | malformed
  | content (d : ConfigData)
deriving DecidableEq

/-- State owned by `ConfigManager` (`_settings`, `_programs`). -/
structure CMState where
  settings : Option AppSettings
  programs : List ProgramConfig
deriving DecidableEq

/-- The default document written by `ConfigManager._create_default_config`. -/
def default_config : ConfigData :=
  { settings := some
      { monitor_interval_seconds := some 2, log_directory := some "./logs" },
    programs := some
      [ { name := some "サンプルプログラム",
          working_directory := some "C:\\path\\to\\program",
          executable := some "program.exe",
          arguments := some [] } ] }

/-- Embeds `ConfigManager.load_config`. Returns the boolean result, the
new manager state and the document written to disk, if any (the absent
path writes the default document via `_create_default_config`). -/
def load_config (read : ReadOutcome) (st : CMState) :
    Bool × CMState × Option ConfigData :=
  match read with
  | ReadOutcome.absent => (false, st, some default_config)
  | ReadOutcome.malformed => (false, st, none)
  | ReadOutcome.content d =>
      let sd := d.settings.getD
        { monitor_interval_seconds := none, log_directory := none }
      let newSettings : AppSettings :=
        { monitor_interval_seconds := sd.monitor_interval_seconds.getD 2,
          log_directory := sd.log_directory.getD "./logs" }
      let newPrograms := (d.programs.getD []).map fun pd =>
        { name := pd.name.getD "", working_directory := pd.working_directory.getD "",
          executable := pd.executable.getD "", arguments := pd.arguments.getD []
          : ProgramConfig }
      (true, { settings := some newSettings, programs := newPrograms }, none)

/-- A concrete OS oracle for evaluating the operations: every path
exists, every child polls alive, not Windows, spawning yields handle 7
with pid 101, termination is graceful, the probe completes with exit 0. -/
def baseEnv : OSEnv where
  pathExists := fun _ => true
  poll := fun _ => PollOutcome.alive
  isNt := false
  psutil := fun _ => PsutilOutcome.alive
  spawn := SpawnOutcome.ok 7 101
  stopBehavior := fun _ => StopOutcome.graceful
  runProbe := fun _ => RunOutcome.completed 0
  now := 50

/-- Oracle whose every path is missing. -/
def envNoWork : OSEnv := { baseEnv with pathExists := fun _ => false }

/-- Oracle whose `poll` raises an unexpected OS error. -/
def envPollErr : OSEnv := { baseEnv with poll := fun _ => PollOutcome.raises }

/-- Oracle that observes every child as exited with code 0. -/
def envExit : OSEnv := { baseEnv with poll := fun _ => PollOutcome.exited 0 }

/-- Oracle whose probe invocation completes with a non-zero exit code. -/
def envProbe : OSEnv := { baseEnv with runProbe := fun _ => RunOutcome.completed 1 }

/-- A tracked entry whose child is recorded as running. -/
def infoRun : ProcessInfo :=
  { name := "alpha", process := some 11, pid := some 42,
    is_running := true, start_time := some 100 }

/-- A map holding the single running entry `infoRun`. -/
def mapRun : ProcMap := [("alpha", infoRun)]

/-- A map holding a single freshly registered (stopped) entry. -/
def mapStopped : ProcMap := [("beta", freshInfo "beta")]

/-- Descriptor for the running entry. -/
def cfgAlpha : ProgramConfig :=
  { name := "alpha", working_directory := "C:/work", executable := "a.exe",
    arguments := [] }

/-- Descriptor for the stopped entry. -/
def cfgBeta : ProgramConfig :=
  { name := "beta", working_directory := "C:/work", executable := "b.exe",
    arguments := [] }

/-- Descriptor for a name never registered. -/
def cfgGamma : ProgramConfig :=
  { name := "gamma", working_directory := "C:/work", executable := "g.exe",
    arguments := [] }

/-- Lookup after an in-place update at a present key finds the new value. -/
theorem lookupMap_updateMap_self (m : ProcMap) (k : String)
    (v w : ProcessInfo) (hmem : lookupMap m k = some w) :
    lookupMap (updateMap m k v) k = some v := by
  induction m with
  | nil => simp [lookupMap] at hmem
  | cons hd tl ih =>
      obtain ⟨k0, v0⟩ := hd
      by_cases hk : k0 = k
      · simp [lookupMap, updateMap, hk]
      · simp [lookupMap, updateMap, hk] at hmem ⊢
        exact ih hmem

/-- An in-place update at one key does not change lookups at other keys. -/
theorem lookupMap_updateMap_ne (m : ProcMap) (k j : String)
    (v : ProcessInfo) (hne : j ≠ k) :
    lookupMap (updateMap m k v) j = lookupMap m j := by
  induction m with
  | nil => simp [updateMap]
  | cons hd tl ih =>
      obtain ⟨k0, v0⟩ := hd
      by_cases hk : k0 = k
      · subst hk
        simp [lookupMap, updateMap, Ne.symm hne]
      · simp [lookupMap, updateMap, hk]
        by_cases hj : k0 = j
        · simp [hj]
        · simp [hj, ih]

/-- Appending a fresh key makes it found by lookup. -/
theorem lookupMap_append_self (m : ProcMap) (k : String) (v : ProcessInfo)
    (hnone : lookupMap m k = none) :
    lookupMap (m ++ [(k, v)]) k = some v := by
  induction m with
  | nil => simp [lookupMap]
  | cons hd tl ih =>
      obtain ⟨k0, v0⟩ := hd
      by_cases hk : k0 = k
      · simp [lookupMap, hk] at hnone
      · simp [lookupMap, hk] at hnone ⊢
        exact ih hnone

/-- Lookup after a dict assignment at the same key finds the new value. -/
theorem lookupMap_setMap_self (m : ProcMap) (k : String) (v : ProcessInfo) :
    lookupMap (setMap m k v) k = some v := by
  cases hl : lookupMap m k with
  | some w => simpa [setMap, hl] using lookupMap_updateMap_self m k v w hl
  | none => simpa [setMap, hl] using lookupMap_append_self m k v hl

/-- When the liveness check reports `true`, it has not touched the map. -/
theorem is_running_true_frame (env : OSEnv) (m : ProcMap) (n : String)
    (h : (is_running env m n).1 = true) : (is_running env m n).2 = m := by
  cases hl : lookupMap m n with
  | none => simp [is_running, hl]
  | some info =>
    cases hp : info.process with
    | none => simp [is_running, hl, hp]
    | some hd =>
      cases hpoll : env.poll hd with
      | exited code => simp [is_running, hl, hp, hpoll] at h
      | raises => simp [is_running, hl, hp, hpoll] at h
      | alive =>
        by_cases hnt : (env.isNt && pidTruthy info.pid) = true
        · rw [Bool.and_eq_true] at hnt
          obtain ⟨hnt1, hnt2⟩ := hnt
          cases hpid : info.pid with
          | none => rw [hpid] at hnt2; simp [pidTruthy] at hnt2
          | some p =>
            rw [hpid] at hnt2
            cases hps : env.psutil p with
            | alive => simp [is_running, hl, hp, hpoll, hnt1, hnt2, hpid, hps]
            | notRunning => simp [is_running, hl, hp, hpoll, hnt1, hnt2, hpid, hps] at h
            | noSuch => simp [is_running, hl, hp, hpoll, hnt1, hnt2, hpid, hps] at h
            | raises => simp [is_running, hl, hp, hpoll, hnt1, hnt2, hpid, hps] at h
        · simp [is_running, hl, hp, hpoll, hnt]

/-- C6: `_is_executable_in_path` returns false exactly when the
bounded-time (1 second) invocation of the executable times out or the
command is not found, and returns true for any other outcome of the
invocation, including the executable exiting with a non-zero status. -/
theorem is_executable_in_path_classification (env : OSEnv) (exe : String) :
    (is_executable_in_path env exe = false ↔
      env.runProbe exe = RunOutcome.timedOut ∨
      env.runProbe exe = RunOutcome.notFound) ∧
    (∀ c : Int, env.runProbe exe = RunOutcome.completed c →
      is_executable_in_path env exe = true) := by
  constructor
  · unfold is_executable_in_path
    cases h : env.runProbe exe <;> simp
  · intro c hc
    simp [is_executable_in_path, hc]

/-- Witness for C6: a probe that completes with non-zero exit code 1 is
classified as found. -/
theorem is_executable_in_path_classification_witness :
    envProbe.runProbe "prog.exe" = RunOutcome.completed 1 ∧
    is_executable_in_path envProbe "prog.exe" = true :=
  ⟨rfl, (is_executable_in_path_classification envProbe "prog.exe").2 1 rfl⟩

/-- C7: when the configuration file does not exist, `load_config` writes
the default document — exactly one placeholder program, monitor interval
2 seconds, log directory `./logs` — and returns false, leaving the
manager state unchanged. -/
theorem load_config_absent_defaults (st : CMState) :
    load_config ReadOutcome.absent st = (false, st, some default_config) ∧
    (default_config.programs.getD []).length = 1 ∧
    default_config.settings = some
      { monitor_interval_seconds := some 2, log_directory := some "./logs" } :=
  ⟨rfl, rfl, rfl⟩

/-- C2 counterexample: re-registering the running name `alpha` resets
its tracked entry to the fresh stopped `ProcessInfo` — the running flag,
handle, pid and start time are all cleared, contradicting the claim that
the runtime state is left unchanged. -/
theorem add_program_reset_counterexample :
    infoRun.is_running = true ∧ infoRun.start_time = some 100 ∧
    lookupMap (add_program mapRun cfgAlpha) "alpha" = some (freshInfo "alpha") ∧
    (freshInfo "alpha").is_running = false ∧
    (freshInfo "alpha").start_time = none := by
  refine ⟨rfl, rfl, by decide, rfl, rfl⟩

/-- C2 amended: re-registering a name replaces the tracked entry with a
fresh stopped `ProcessInfo` (handle, pid, running flag and start time
all cleared), so registering a currently running name resets it to
stopped; the descriptor itself is not stored in the tracked entry. -/
theorem add_program_resets_entry (procs : ProcMap) (cfg : ProgramConfig) :
    lookupMap (add_program procs cfg) cfg.name = some (freshInfo cfg.name) :=
  lookupMap_setMap_self procs cfg.name (freshInfo cfg.name)

/-- C4: `stop_program` on a registered name that is not running (cached
flag false, or no recorded handle) returns success and leaves the map
unchanged; on an unregistered name it returns failure. -/
theorem stop_program_noop (env : OSEnv) (m : ProcMap) (n : String) :
    (lookupMap m n = none → stop_program env m n = (false, m)) ∧
    (∀ info, lookupMap m n = some info →
      info.is_running = false ∨ info.process = none →
      stop_program env m n = (true, m)) := by
  constructor
  · intro hna
    simp [stop_program, hna]
  · intro info hreg hcase
    rcases hcase with hc | hc
    · cases hp : info.process with
      | none => simp [stop_program, hreg, hp]
      | some hdl => simp [stop_program, hreg, hp, hc]
    · simp [stop_program, hreg, hc]

/-- Witness for C4: stopping the unknown name `ghost` fails without
touching the map; stopping the registered never-started name `beta`
succeeds without touching the map. -/
theorem stop_program_noop_witness :
    lookupMap mapStopped "ghost" = none ∧
    stop_program baseEnv mapStopped "ghost" = (false, mapStopped) ∧
    lookupMap mapStopped "beta" = some (freshInfo "beta") ∧
    (freshInfo "beta").is_running = false ∧
    stop_program baseEnv mapStopped "beta" = (true, mapStopped) :=
  ⟨by decide, (stop_program_noop baseEnv mapStopped "ghost").1 (by decide),
   by decide, rfl,
   (stop_program_noop baseEnv mapStopped "beta").2 (freshInfo "beta")
     (by decide) (Or.inl rfl)⟩

/-- C5: `start_program` on a registered, stopped name (no recorded
handle, so the liveness re-check is side-effect free) whose working
directory does not exist returns failure, spawns nothing and leaves the
map unchanged. -/
theorem start_program_invalid_workdir (env : OSEnv) (m : ProcMap)
    (cfg : ProgramConfig) (info : ProcessInfo)
    (hreg : lookupMap m cfg.name = some info)
    (hstopped : info.process = none)
    (hwd : env.pathExists cfg.working_directory = false) :
    start_program env m cfg = (false, m, []) := by
  simp [start_program, is_running, hreg, hstopped, hwd]

/-- Witness for C5: starting the registered stopped `beta` under the
oracle with no existing paths fails with no spawn and no state change. -/
theorem start_program_invalid_workdir_witness :
    lookupMap mapStopped "beta" = some (freshInfo "beta") ∧
    (freshInfo "beta").process = none ∧
    envNoWork.pathExists "C:/work" = false ∧
    start_program envNoWork mapStopped cfgBeta = (false, mapStopped, []) :=
  ⟨by decide, rfl, rfl,
   start_program_invalid_workdir envNoWork mapStopped cfgBeta
     (freshInfo "beta") (by decide) rfl rfl⟩

/-- C8: if an OS call during the liveness check raises an unexpected
error — the non-blocking poll itself, or the psutil cross-check on
Windows — `is_running` swallows the error and reports false, leaving the
map unchanged. -/
theorem is_running_swallows_errors (env : OSEnv) (m : ProcMap) (n : String)
    (info : ProcessInfo) (h : Nat)
    (hreg : lookupMap m n = some info)
    (hproc : info.process = some h) :
    (env.poll h = PollOutcome.raises → is_running env m n = (false, m)) ∧
    (∀ p, env.poll h = PollOutcome.alive → env.isNt = true →
      info.pid = some p → p ≠ 0 → env.psutil p = PsutilOutcome.raises →
      is_running env m n = (false, m)) := by
  constructor
  · intro hpoll
    simp [is_running, hreg, hproc, hpoll]
  · intro p hpoll hnt hpid hp0 hps
    simp [is_running, hreg, hproc, hpoll, hnt, hpid, pidTruthy, hp0, hps]

/-- Witness for C8: polling the running entry `alpha` under the oracle
whose poll raises reports false and leaves the map unchanged. -/
theorem is_running_swallows_errors_witness :
    lookupMap mapRun "alpha" = some infoRun ∧
    infoRun.process = some 11 ∧
    envPollErr.poll 11 = PollOutcome.raises ∧
    is_running envPollErr mapRun "alpha" = (false, mapRun) :=
  ⟨by decide, rfl, rfl,
   (is_running_swallows_errors envPollErr mapRun "alpha" infoRun 11
     (by decide) rfl).1 rfl⟩

/-- The liveness check never changes any entry's `start_time`: every
mutation it performs keeps the old `start_time` value. -/
theorem is_running_start_time_frame (env : OSEnv) (m : ProcMap)
    (n k : String) :
    (lookupMap (is_running env m n).2 k).map ProcessInfo.start_time =
      (lookupMap m k).map ProcessInfo.start_time := by
  have hupd : ∀ (info : ProcessInfo), lookupMap m n = some info →
      (lookupMap (updateMap m n
        { info with is_running := false, process := none, pid := none }) k).map
          ProcessInfo.start_time =
        (lookupMap m k).map ProcessInfo.start_time := by
    intro info hl
    by_cases hk : k = n
    · subst hk
      rw [lookupMap_updateMap_self m k _ info hl, hl]
      rfl
    · rw [lookupMap_updateMap_ne m n k _ hk]
  cases hl : lookupMap m n with
  | none => simp [is_running, hl]
  | some info =>
    cases hp : info.process with
    | none => simp [is_running, hl, hp]
    | some hd =>
      cases hpoll : env.poll hd with
      | exited code => simpa [is_running, hl, hp, hpoll] using hupd info hl
      | raises => simp [is_running, hl, hp, hpoll]
      | alive =>
        by_cases hnt : (env.isNt && pidTruthy info.pid) = true
        · rw [Bool.and_eq_true] at hnt
          obtain ⟨hnt1, hnt2⟩ := hnt
          cases hpid : info.pid with
          | none => rw [hpid] at hnt2; simp [pidTruthy] at hnt2
          | some p =>
            rw [hpid] at hnt2
            cases hps : env.psutil p with
            | alive => simp [is_running, hl, hp, hpoll, hnt1, hnt2, hpid, hps]
            | notRunning =>
                simpa [is_running, hl, hp, hpoll, hnt1, hnt2, hpid, hps]
                  using hupd info hl
            | noSuch =>
                simpa [is_running, hl, hp, hpoll, hnt1, hnt2, hpid, hps]
                  using hupd info hl
            | raises => simp [is_running, hl, hp, hpoll, hnt1, hnt2, hpid, hps]
        · simp [is_running, hl, hp, hpoll, hnt]

/-- C1: starting an already-running program is idempotent. From a
registered stopped entry, a first `start_program` succeeds and spawns
one child `h`; with the oracle observing `h` alive, the liveness
re-check reports true, and a second `start_program` returns success
without spawning and without changing the map — two consecutive starts
leave exactly the one spawned child. -/
theorem start_program_idempotent (env : OSEnv) (m : ProcMap)
    (cfg : ProgramConfig) (info : ProcessInfo) (h p : Nat)
    (hreg : lookupMap m cfg.name = some info)
    (hstopped : info.process = none)
    (hwd : env.pathExists cfg.working_directory = true)
    (hexe : env.pathExists (joinPath cfg.working_directory cfg.executable) = true)
    (hspawn : env.spawn = SpawnOutcome.ok h p)
    (halive : env.poll h = PollOutcome.alive)
    (hnt : env.isNt = false) :
    ∃ m1,
      start_program env m cfg = (true, m1, [h]) ∧
      (is_running env m1 cfg.name).1 = true ∧
      start_program env m1 cfg = (true, m1, []) := by
  refine ⟨updateMap m cfg.name
    { info with
        process := some h, pid := some p,
        is_running := true, start_time := some env.now }, ?_, ?_, ?_⟩
  · simp [start_program, is_running, hreg, hstopped, hwd, hexe, hspawn]
  · have hlook := lookupMap_updateMap_self m cfg.name
      { info with
          process := some h, pid := some p,
          is_running := true, start_time := some env.now } info hreg
    simp [is_running, hlook, halive, hnt]
  · have hlook := lookupMap_updateMap_self m cfg.name
      { info with
          process := some h, pid := some p,
          is_running := true, start_time := some env.now } info hreg
    simp [start_program, is_running, hlook, halive, hnt]

/-- Witness for C1: starting the registered stopped `beta` twice under
the base oracle spawns exactly one child, handle 7. -/
theorem start_program_idempotent_witness :
    lookupMap mapStopped "beta" = some (freshInfo "beta") ∧
    (∃ m1, start_program baseEnv mapStopped cfgBeta = (true, m1, [7]) ∧
      (is_running baseEnv m1 "beta").1 = true ∧
      start_program baseEnv m1 cfgBeta = (true, m1, [])) :=
  ⟨by decide,
   start_program_idempotent baseEnv mapStopped cfgBeta (freshInfo "beta")
     7 101 (by decide) rfl rfl rfl rfl rfl rfl⟩

/-- C3: a successful `stop_program` on a registered running entry clears
all four runtime fields — handle, pid, running flag and start time —
whether the graceful path or the forced-kill path was taken, and returns
success. -/
theorem stop_program_clears_fields (env : OSEnv) (m : ProcMap) (n : String)
    (info : ProcessInfo) (h : Nat)
    (hreg : lookupMap m n = some info)
    (hflag : info.is_running = true)
    (hproc : info.process = some h)
    (hok : env.stopBehavior h ≠ StopOutcome.raises) :
    stop_program env m n =
      (true, updateMap m n
        { info with
            process := none, pid := none,
            is_running := false, start_time := none }) := by
  cases hs : env.stopBehavior h with
  | raises => exact absurd hs hok
  | graceful => simp [stop_program, hreg, hflag, hproc, hs]
  | forced => simp [stop_program, hreg, hflag, hproc, hs]

/-- Witness for C3: stopping the running entry `alpha` under the base
oracle (graceful termination) clears its four runtime fields. -/
theorem stop_program_clears_fields_witness :
    lookupMap mapRun "alpha" = some infoRun ∧
    infoRun.is_running = true ∧
    infoRun.process = some 11 ∧
    baseEnv.stopBehavior 11 ≠ StopOutcome.raises ∧
    stop_program baseEnv mapRun "alpha" =
      (true, updateMap mapRun "alpha"
        { infoRun with
            process := none, pid := none,
            is_running := false, start_time := none }) :=
  ⟨by decide, rfl, rfl, by decide,
   stop_program_clears_fields baseEnv mapRun "alpha" infoRun 11
     (by decide) rfl rfl (by decide)⟩

/-- C9: `start_program` on a never-registered name whose working
directory and executable checks pass spawns the child first and only
then fails on the missing tracked entry: it returns failure with the map
unchanged, yet one child (handle `h`) was spawned and is untracked. -/
theorem start_program_unregistered_spawn_leak (env : OSEnv) (m : ProcMap)
    (cfg : ProgramConfig) (h p : Nat)
    (hreg : lookupMap m cfg.name = none)
    (hwd : env.pathExists cfg.working_directory = true)
    (hexe : env.pathExists (joinPath cfg.working_directory cfg.executable) = true)
    (hspawn : env.spawn = SpawnOutcome.ok h p) :
    start_program env m cfg = (false, m, [h]) := by
  simp [start_program, is_running, hreg, hwd, hexe, hspawn]

/-- Witness for C9: starting the unregistered `gamma` under the base
oracle fails while leaking the spawned child with handle 7. -/
theorem start_program_unregistered_spawn_leak_witness :
    lookupMap ([] : ProcMap) "gamma" = none ∧
    start_program baseEnv [] cfgGamma = (false, [], [7]) :=
  ⟨rfl,
   start_program_unregistered_spawn_leak baseEnv [] cfgGamma 7 101
     rfl rfl rfl rfl⟩

/-- C10: when the poll observes an exit, `is_running` clears handle, pid
and running flag but keeps the old `start_time`; no branch of
`is_running` ever changes any entry's `start_time`, and a successful
`stop_program` on the running entry is what resets `start_time` to
empty. -/
theorem is_running_preserves_start_time (env : OSEnv) (m : ProcMap)
    (n : String) (info : ProcessInfo) (h : Nat) (c : Int)
    (hreg : lookupMap m n = some info)
    (hproc : info.process = some h) :
    (env.poll h = PollOutcome.exited c →
      is_running env m n =
        (false, updateMap m n
          { info with is_running := false, process := none, pid := none }) ∧
      ({ info with is_running := false, process := none, pid := none }
        : ProcessInfo).start_time = info.start_time) ∧
    (∀ k, (lookupMap (is_running env m n).2 k).map ProcessInfo.start_time =
      (lookupMap m k).map ProcessInfo.start_time) ∧
    (info.is_running = true → env.stopBehavior h ≠ StopOutcome.raises →
      (lookupMap (stop_program env m n).2 n).map ProcessInfo.start_time =
        some none) := by
  refine ⟨?_, ?_, ?_⟩
  · intro hpoll
    exact ⟨by simp [is_running, hreg, hproc, hpoll], rfl⟩
  · intro k
    exact is_running_start_time_frame env m n k
  · intro hflag hok
    rw [stop_program_clears_fields env m n info h hreg hflag hproc hok]
    rw [lookupMap_updateMap_self m n _ info hreg]
    rfl

/-- Witness for C10: under the oracle that observes every child exited,
checking the running entry `alpha` clears handle, pid and flag but keeps
`start_time = some 100`; its `start_time` survives the check, and a
successful stop resets it. -/
theorem is_running_preserves_start_time_witness :
    (is_running envExit mapRun "alpha" =
      (false, updateMap mapRun "alpha"
        { infoRun with is_running := false, process := none, pid := none }) ∧
      ({ infoRun with is_running := false, process := none, pid := none }
        : ProcessInfo).start_time = infoRun.start_time) ∧
    (lookupMap (is_running envExit mapRun "alpha").2 "alpha").map
      ProcessInfo.start_time =
      (lookupMap mapRun "alpha").map ProcessInfo.start_time ∧
    (lookupMap (stop_program envExit mapRun "alpha").2 "alpha").map
      ProcessInfo.start_time = some none :=
  ⟨(is_running_preserves_start_time envExit mapRun "alpha" infoRun 11 0
      (by decide) rfl).1 rfl,
   (is_running_preserves_start_time envExit mapRun "alpha" infoRun 11 0
      (by decide) rfl).2.1 "alpha",
   (is_running_preserves_start_time envExit mapRun "alpha" infoRun 11 0
      (by decide) rfl).2.2 rfl (by decide)⟩
